import Mathlib

/-!
Verification development for the photobooth capture page
(`src/pages/CameraPage.tsx`, multi-photo variant).

The page is a React component.  Its sequencing core consists of the
functions `takePicture`, `captureMultiplePhotos`, `capturePhoto`,
`retakePhoto` and `downloadPhoto`, all operating on React `useState`
cells (`filter`, `timer`, `photoCount`, `countdown`, `capturedImages`,
`currentPhotoIndex`, `isCapturing`, `showFlash`).

Shallow embedding used here:

* Component state is `CameraState`, one field per `useState` cell.
* Each `setX(v)` call performed by the sequencing code is emitted as an
  `Event` in program order; `applyEvents` folds events back onto a
  `CameraState`, so any prefix of the event list gives the component
  state observable at that point of the run.
* The one-second `setInterval` callback boundaries are marked by an
  `Event.tick` preceding the events of each interval callback; events
  between two `tick`s happen inside one synchronous segment (no
  observable delay between them).  The continuation of the `await`ed
  promise (the capture following the final countdown tick) runs as a
  microtask in the same macrotask turn as that final tick, hence its
  events follow the tick's events with no `tick` mark in between.
* The frame-grabbing surface (`videoRef.current`, `canvasRef.current`,
  `canvas.getContext` and the video's current pixel content) is an
  external collaborator, modelled as `Surface`; a run reads it once per
  capture attempt, so it is passed as a function `Nat → Surface` from
  the capture attempt's index to the surface state at that instant.
* An encoded still image is determined by the frame content drawn and
  the CSS filter applied while drawing (`EncodedImage`).
* JavaScript closure semantics: the click handler `capturePhoto` and the
  functions it calls close over the render-time values of `filter`,
  `timer` and `photoCount`; mid-run `setFilter`/`setTimer`/`setPhotoCount`
  calls create new closures for *later* renders but do not change the
  values seen by the already-running async loop.  The embedding renders
  this by having the run functions take those three values from the
  state snapshot at invocation time.
* The countdown interval decrements an integer `remaining` and stops at
  `remaining <= 0`; it is embedded with `remaining` as structural fuel
  (`intervalEvents`), faithful for every start value the code can pass
  (`parseInt(timer) ∈ {3,5,10}`); the fuel-0 branch mirrors what the
  callback would do if it ever ran with `remaining = 0` (decrement to
  `-1`, publish it, clear).  Totality of these functions mirrors the
  source's termination (the interval always reaches 0 and the `for` loop
  is bounded by `count`).
-/

namespace Photobooth

/-- The `FilterType` union of the source: CSS filter strings offered by
the filter selector. -/
inductive FilterType where
  | none
  | grayscale
  | sepia
  | invert
  | blur
  | contrast
  deriving DecidableEq, Repr

/-- The `TimerType` union of the source: `'off' | '3' | '5' | '10'`. -/
inductive TimerType where
  | off
  | t3
  | t5
  | t10
  deriving DecidableEq, Repr

/-- The `PhotoCountType` union of the source: `'1' | '2' | '3' | '4'`. -/
inductive PhotoCountType where
  | c1
  | c2
  | c3
  | c4
  deriving DecidableEq, Repr

/-- `parseInt(timer)`, evaluated by the source only under the guard
`timer !== 'off'` (the `off` branch is never executed; it is given the
value 0 to totalize). -/
def TimerType.seconds : TimerType → Nat
  | .off => 0
  | .t3 => 3
  | .t5 => 5
  | .t10 => 10

/-- `parseInt(photoCount)`. -/
def PhotoCountType.parseInt : PhotoCountType → Nat
  | .c1 => 1
  | .c2 => 2
  | .c3 => 3
  | .c4 => 4

/-- The frame-grabbing surface as seen by one `takePicture` call:
whether `videoRef.current` and `canvasRef.current` are non-null, whether
`canvas.getContext('2d')` yields a context, and the video's current
pixel content (abstracted to a `Nat` tag). -/
structure Surface where
  videoRef : Bool
  canvasRef : Bool
  context2d : Bool
  frame : Nat
  deriving DecidableEq, Repr

/-- A self-contained encoded still image (`canvas.toDataURL`): the frame
content that was drawn and the CSS filter applied during compositing. -/
structure EncodedImage where
  frame : Nat
  filter : FilterType
  deriving DecidableEq, Repr

/-- Observable actions of the sequencing code, in program order.
`tick` marks a one-second `setInterval` callback boundary; the other
constructors record the `setState` calls and the capture attempts. -/
inductive Event where
  | tick
  | setIndex (n : Nat)
  | setCountdown (v : Option Int)
  | flash
  | capture (i : Nat) (result : Option EncodedImage)
  | setCapturedImages (images : List EncodedImage)
  | setIsCapturing (b : Bool)
  deriving DecidableEq, Repr

/-- `takePicture` (source lines 53–78): bails out returning `undefined`
when `videoRef.current` or `canvasRef.current` is null, or when no 2d
context is available; otherwise fires the flash, draws the current frame
with the active filter and returns the encoded image.  Returns the
events it emits and its return value. -/
def takePicture (sf : Surface) (filter : FilterType) :
    List Event × Option EncodedImage :=
  if !sf.videoRef || !sf.canvasRef then ([], Option.none)
  else if !sf.context2d then ([], Option.none)
  else ([Event.flash], some ⟨sf.frame, filter⟩)

/-- The `setInterval` countdown callback chain (source lines 91–103),
entered with current value `remaining`.  Each callback fires after one
second (`tick`), decrements `remaining`, publishes it via
`setCountdown`, and on `remaining <= 0` clears the interval, publishes
`null` and resolves the awaited promise.  The argument is the value of
`remaining` when the next callback fires; the chain ends at the callback
that reaches a non-positive value. -/
def intervalEvents : Nat → List Event
  | 0 => [Event.tick, Event.setCountdown (some (-1)), Event.setCountdown Option.none]
  | 1 => [Event.tick, Event.setCountdown (some 0), Event.setCountdown Option.none]
  | r + 2 =>
      Event.tick :: Event.setCountdown (some ((r + 1 : Nat) : Int)) ::
        intervalEvents (r + 1)

/-- The `for` loop of `captureMultiplePhotos` (source lines 83–111),
with `n` iterations left and `i` the current loop counter.  Each
iteration publishes the 1-based photo index, runs a countdown when the
timer is not `'off'` (publishing the initial value, then awaiting the
interval), invokes `takePicture`, and pushes the image onto the local
`images` array when the call returned one.  Returns the emitted events
and the accumulated `images`. -/
def captureLoop (env : Nat → Surface) (filter : FilterType)
    (timer : TimerType) : Nat → Nat → List Event × List EncodedImage
  | 0, _ => ([], [])
  | n + 1, i =>
      let cdEvents :=
        if timer ≠ TimerType.off then
          Event.setCountdown (some (timer.seconds : Int)) ::
            intervalEvents timer.seconds
        else []
      let picture := takePicture (env i) filter
      let rest := captureLoop env filter timer n (i + 1)
      (Event.setIndex (i + 1) :: cdEvents ++ picture.1 ++
         Event.capture i picture.2 :: rest.1,
       match picture.2 with
       | some image => image :: rest.2
       | Option.none => rest.2)

/-- `captureMultiplePhotos(count)` (source lines 80–117): runs the
capture loop, then unconditionally publishes the accumulated images,
clears `isCapturing`, resets the photo index and clears the countdown.
Returns the emitted events and the local `images` array. -/
def captureMultiplePhotos (env : Nat → Surface) (filter : FilterType)
    (timer : TimerType) (count : Nat) : List Event × List EncodedImage :=
  let run := captureLoop env filter timer count 0
  (run.1 ++
     [Event.setCapturedImages run.2, Event.setIsCapturing false,
      Event.setIndex 0, Event.setCountdown Option.none],
   run.2)

/-- The React component state: one field per `useState` cell of
`CameraPage` that the sequencing core touches (the `stream` cell is an
external resource handle and not part of the sequencing claims). -/
structure CameraState where
  filter : FilterType
  timer : TimerType
  photoCount : PhotoCountType
  countdown : Option Int
  capturedImages : List EncodedImage
  currentPhotoIndex : Nat
  isCapturing : Bool
  showFlash : Bool
  deriving DecidableEq, Repr

/-- The initial component state (the `useState` initial values). -/
def initState : CameraState where
  filter := FilterType.none
  timer := TimerType.off
  photoCount := PhotoCountType.c1
  countdown := Option.none
  capturedImages := []
  currentPhotoIndex := 0
  isCapturing := false
  showFlash := false

/-- Effect of one emitted event on the component state. -/
def applyEvent (s : CameraState) : Event → CameraState
  | Event.tick => s
  | Event.setIndex n => { s with currentPhotoIndex := n }
  | Event.setCountdown v => { s with countdown := v }
  | Event.flash => { s with showFlash := true }
  | Event.capture _ _ => s
  | Event.setCapturedImages images => { s with capturedImages := images }
  | Event.setIsCapturing b => { s with isCapturing := b }

/-- Component state after a list of events. -/
def applyEvents (s : CameraState) (evs : List Event) : CameraState :=
  evs.foldl applyEvent s

/-- `capturePhoto` (source lines 119–123): reads `parseInt(photoCount)`,
sets `isCapturing` and awaits `captureMultiplePhotos`.  The `filter`,
`timer` and `photoCount` values used throughout the run are the ones
closed over at invocation time, i.e. the fields of `s`.  Note the
function performs no check of `isCapturing` before starting. -/
def capturePhoto (env : Nat → Surface) (s : CameraState) :
    List Event × List EncodedImage :=
  let count := s.photoCount.parseInt
  let run := captureMultiplePhotos env s.filter s.timer count
  (Event.setIsCapturing true :: run.1, run.2)

/-- The capture control as rendered (source lines 263–270): the button
exists only while `capturedImages.length === 0` and carries
`disabled={isCapturing}`, so a click reaches `capturePhoto` only when no
batch is shown and no run is active; otherwise the click is a no-op. -/
def clickCaptureButton (env : Nat → Surface) (s : CameraState) :
    List Event × List EncodedImage :=
  if s.capturedImages.length = 0 ∧ s.isCapturing = false then
    capturePhoto env s
  else ([], [])

/-- One invocation of the external download mechanism (an `<a>` element
whose `href` and `download` are set before `click()`). -/
structure DownloadLink where
  href : EncodedImage
  download : String
  deriving DecidableEq, Repr

/-- `downloadPhoto` (source lines 130–139): no-op on an empty batch;
otherwise one link per image via `forEach`, in batch order, named
`vintage-photo-<Date.now()>-<index + 1>.png`.  `Date.now()` is read per
iteration, modelled by `now : Nat → Nat` from the iteration index.  The
function calls no `setState`; the returned state is the input state. -/
def downloadPhoto (now : Nat → Nat) (s : CameraState) :
    List DownloadLink × CameraState :=
  if s.capturedImages.length = 0 then ([], s)
  else
    (s.capturedImages.enum.map (fun p =>
       { href := p.2,
         download := "vintage-photo-" ++ toString (now p.1) ++ "-" ++
           toString (p.1 + 1) ++ ".png" }),
     s)

/-- Whether one `takePicture` call can grab a frame: both refs present
and a 2d context available. -/
def surfaceOk (sf : Surface) : Bool :=
  sf.videoRef && sf.canvasRef && sf.context2d

/-- The countdown values published by a list of events (the arguments of
the `setCountdown(some _)` calls, in order). -/
def cdValues (evs : List Event) : List Int :=
  evs.filterMap (fun e =>
    match e with
    | Event.setCountdown (some v) => some v
    | _ => Option.none)

/-- The photo-index values published by a list of events. -/
def indexValues (evs : List Event) : List Nat :=
  evs.filterMap (fun e =>
    match e with
    | Event.setIndex n => some n
    | _ => Option.none)

/-- The descending list `[s, s-1, ..., 1, 0]` of countdown values. -/
def descList (s : Nat) : List Int :=
  (List.range (s + 1)).reverse.map (fun (n : Nat) => (n : Int))

/-- Number of successful capture events (images pushed onto `images`). -/
def successCount (evs : List Event) : Nat :=
  (evs.filterMap (fun e =>
    match e with
    | Event.capture _ (some image) => some image
    | _ => Option.none)).length

/-- Number of capture attempts (calls of `takePicture`) in a trace. -/
def attemptCount (evs : List Event) : Nat :=
  (evs.filterMap (fun e =>
    match e with
    | Event.capture i _ => some i
    | _ => Option.none)).length

/-- The events of one iteration of the capture loop for photo `i`
(0-based): publish the 1-based index, countdown when the timer is on,
then the capture attempt. -/
def photoSegment (env : Nat → Surface) (filter : FilterType)
    (timer : TimerType) (i : Nat) : List Event :=
  Event.setIndex (i + 1) ::
    (if timer ≠ TimerType.off then
       Event.setCountdown (some (timer.seconds : Int)) ::
         intervalEvents timer.seconds
     else []) ++
    (takePicture (env i) filter).1 ++
    [Event.capture i (takePicture (env i) filter).2]

/-- The unconditional epilogue of `captureMultiplePhotos` (source lines
113–116). -/
def finaleEvents (images : List EncodedImage) : List Event :=
  [Event.setCapturedImages images, Event.setIsCapturing false,
   Event.setIndex 0, Event.setCountdown Option.none]

/-- Checker: every published countdown value 0 is immediately followed
by the `setCountdown null` of the same interval callback, so a zero
never persists to the next event, let alone across a tick boundary. -/
def zeroCleared : List Event → Bool
  | [] => true
  | Event.setCountdown (some v) :: rest =>
      (if v = 0 then
         match rest with
         | Event.setCountdown Option.none :: _ => true
         | _ => false
       else true) && zeroCleared rest
  | _ :: rest => zeroCleared rest

/-- Checker: scanning forward, a capture attempt occurs before the next
one-second tick boundary (and before the trace ends). -/
def captureFirst : List Event → Bool
  | [] => false
  | Event.capture _ _ :: _ => true
  | Event.tick :: _ => false
  | _ :: rest => captureFirst rest

/-- Checker: after every published countdown value 0, a capture attempt
occurs before the next tick boundary — the tick that brought the value
to 0 also triggers the transition to capturing. -/
def zeroThenCapture : List Event → Bool
  | [] => true
  | Event.setCountdown (some v) :: rest =>
      (if v = 0 then captureFirst rest else true) && zeroThenCapture rest
  | _ :: rest => zeroThenCapture rest

/-- Checker: no published countdown value is negative. -/
def noNegCd (evs : List Event) : Bool :=
  evs.all (fun e =>
    match e with
    | Event.setCountdown (some v) => decide (0 ≤ v)
    | _ => true)

/-- Checker: no numeric countdown value is ever published. -/
def noCdSet (evs : List Event) : Bool :=
  evs.all (fun e =>
    match e with
    | Event.setCountdown (some _) => false
    | _ => true)

/-- A selector change performed through the selection widgets while the
component is mounted: `setFilter`, `setTimer` or `setPhotoCount`. -/
inductive SelectorEvent where
  | setFilter (f : FilterType)
  | setTimer (t : TimerType)
  | setPhotoCount (pc : PhotoCountType)
  deriving DecidableEq, Repr

/-- Effect of a selector change on the component state. -/
def applySelector (s : CameraState) : SelectorEvent → CameraState
  | SelectorEvent.setFilter f => { s with filter := f }
  | SelectorEvent.setTimer t => { s with timer := t }
  | SelectorEvent.setPhotoCount pc => { s with photoCount := pc }

/-- Component state after an interleaving of run events and selector
changes (selector changes can land between the run's suspension
points). -/
def applyMixed (s : CameraState) : List (Event ⊕ SelectorEvent) → CameraState
  | [] => s
  | Sum.inl e :: rest => applyMixed (applyEvent s e) rest
  | Sum.inr se :: rest => applyMixed (applySelector s se) rest

/-- The run events of an interleaved list, in order. -/
def runEventsOf (m : List (Event ⊕ SelectorEvent)) : List Event :=
  m.filterMap (fun x =>
    match x with
    | Sum.inl e => some e
    | Sum.inr _ => Option.none)

/-- The run-owned component-state fields: countdown, batch, photo index,
capturing flag and flash (everything except the selector values). -/
def runProj (s : CameraState) :
    Option Int × List EncodedImage × Nat × Bool × Bool :=
  (s.countdown, s.capturedImages, s.currentPhotoIndex, s.isCapturing,
   s.showFlash)

/-- A surface on which every capture attempt succeeds; the frame content
at attempt `i` is tagged `i`. -/
def envGood : Nat → Surface := fun i => ⟨true, true, true, i⟩

/-- A surface on which exactly the second capture attempt (index 1)
fails: its canvas yields no 2d context. -/
def envPartial : Nat → Surface := fun i =>
  if i = 1 then ⟨true, true, false, i⟩ else ⟨true, true, true, i⟩

/-- A component state as observed mid-run: a run is active
(`isCapturing` set, photo 1 in progress, countdown showing 2). -/
def activeState : CameraState :=
  { initState with isCapturing := true, currentPhotoIndex := 1,
                   countdown := some 2 }

/-- A reviewing state holding a completed one-image batch. -/
def oneShotState : CameraState :=
  { initState with capturedImages := [⟨0, FilterType.none⟩] }

/-! ### Support lemmas -/

theorem takePicture_result (sf : Surface) (f : FilterType) :
    (takePicture sf f).2 =
      if surfaceOk sf then some ⟨sf.frame, f⟩ else Option.none := by
  rcases sf with ⟨v, c, x, fr⟩
  cases v <;> cases c <;> cases x <;> simp [takePicture, surfaceOk]

theorem takePicture_events (sf : Surface) (f : FilterType) :
    (takePicture sf f).1 = [] ∨ (takePicture sf f).1 = [Event.flash] := by
  rcases sf with ⟨v, c, x, fr⟩
  cases v <;> cases c <;> cases x <;> simp [takePicture]

theorem captureLoop_succ (env : Nat → Surface) (f : FilterType)
    (t : TimerType) (n i : Nat) :
    captureLoop env f t (n + 1) i =
      (photoSegment env f t i ++ (captureLoop env f t n (i + 1)).1,
       match (takePicture (env i) f).2 with
       | some image => image :: (captureLoop env f t n (i + 1)).2
       | Option.none => (captureLoop env f t n (i + 1)).2) := by
  simp [captureLoop, photoSegment]

theorem captureLoop_images (env : Nat → Surface) (f : FilterType)
    (t : TimerType) :
    ∀ n i, (captureLoop env f t n i).2 =
      (List.range n).filterMap (fun j => (takePicture (env (i + j)) f).2) := by
  intro n
  induction n with
  | zero => intro i; simp [captureLoop]
  | succ n ih =>
      intro i
      rw [List.range_succ_eq_map, List.filterMap_cons, List.filterMap_map]
      have harg :
          (fun j => (takePicture (env (i + j)) f).2) ∘ Nat.succ =
            fun j => (takePicture (env (i + 1 + j)) f).2 := by
        funext j
        have : i + Nat.succ j = i + 1 + j := by omega
        simp [Function.comp, this]
      rw [captureLoop_succ, harg, ← ih (i + 1)]
      cases htp : (takePicture (env (i + 0)) f).2 <;>
        simp_all [Nat.add_zero]

theorem captureLoop_events (env : Nat → Surface) (f : FilterType)
    (t : TimerType) :
    ∀ n i, (captureLoop env f t n i).1 =
      ((List.range n).map (fun j => photoSegment env f t (i + j))).flatten := by
  intro n
  induction n with
  | zero => intro i; simp [captureLoop]
  | succ n ih =>
      intro i
      rw [List.range_succ_eq_map, List.map_cons, List.flatten_cons,
        List.map_map, captureLoop_succ, ih (i + 1)]
      have harg :
          (fun j => photoSegment env f t (i + j)) ∘ Nat.succ =
            fun j => photoSegment env f t (i + 1 + j) := by
        funext j
        have : i + Nat.succ j = i + 1 + j := by omega
        simp [Function.comp, this]
      simp [harg]

theorem captureMultiplePhotos_events (env : Nat → Surface)
    (f : FilterType) (t : TimerType) (count : Nat) :
    (captureMultiplePhotos env f t count).1 =
      ((List.range count).map (fun j => photoSegment env f t j)).flatten ++
        finaleEvents (captureMultiplePhotos env f t count).2 := by
  have h := captureLoop_events env f t count 0
  simp only [Nat.zero_add] at h
  simp [captureMultiplePhotos, finaleEvents, h]

theorem captureMultiplePhotos_images (env : Nat → Surface)
    (f : FilterType) (t : TimerType) (count : Nat) :
    (captureMultiplePhotos env f t count).2 =
      (List.range count).filterMap (fun j => (takePicture (env j) f).2) := by
  have h := captureLoop_images env f t count 0
  simp only [Nat.zero_add] at h
  simpa [captureMultiplePhotos] using h

theorem descList_succ (s : Nat) :
    descList (s + 1) = ((s + 1 : Nat) : Int) :: descList s := by
  simp [descList, List.range_succ, List.reverse_append]

theorem descList_mem (s : Nat) (v : Int) :
    v ∈ descList s ↔ 0 ≤ v ∧ v ≤ (s : Int) := by
  simp only [descList, List.mem_map, List.mem_reverse, List.mem_range]
  constructor
  · rintro ⟨n, hn, rfl⟩
    omega
  · rintro ⟨h0, h1⟩
    exact ⟨v.toNat, by omega, by omega⟩

theorem descList_nodup (s : Nat) : (descList s).Nodup := by
  unfold descList
  exact List.Nodup.map (fun a b h => by exact_mod_cast h)
    ((List.nodup_reverse).2 (List.nodup_range _))

theorem descList_count (s : Nat) (v : Int) :
    (descList s).count v = if 0 ≤ v ∧ v ≤ (s : Int) then 1 else 0 := by
  by_cases h : 0 ≤ v ∧ v ≤ (s : Int)
  · rw [if_pos h]
    exact List.count_eq_one_of_mem (descList_nodup s) ((descList_mem s v).2 h)
  · rw [if_neg h]
    exact List.count_eq_zero.2 (fun hm => h ((descList_mem s v).1 hm))

theorem cdValues_append (l r : List Event) :
    cdValues (l ++ r) = cdValues l ++ cdValues r := by
  simp [cdValues, List.filterMap_append]

theorem cdValues_intervalEvents (r : Nat) :
    cdValues (intervalEvents (r + 1)) = descList r := by
  induction r with
  | zero => rfl
  | succ r ih =>
      show cdValues (Event.tick :: Event.setCountdown (some ((r + 1 : Nat) : Int)) ::
        intervalEvents (r + 1)) = descList (r + 1)
      rw [descList_succ, ← ih]
      simp [cdValues, List.filterMap_cons]

theorem cdValues_takePicture (sf : Surface) (f : FilterType) :
    cdValues (takePicture sf f).1 = [] := by
  rcases takePicture_events sf f with h | h <;> simp [h, cdValues]


theorem zeroCleared_cons_other (e : Event) (l : List Event)
    (h : ∀ v : Option Int, e ≠ Event.setCountdown v) :
    zeroCleared (e :: l) = zeroCleared l := by
  cases e <;> simp_all [zeroCleared]

theorem zeroCleared_cons_none (l : List Event) :
    zeroCleared (Event.setCountdown Option.none :: l) = zeroCleared l := by
  simp [zeroCleared]

theorem zeroCleared_cons_pos (v : Int) (l : List Event) (hv : v ≠ 0) :
    zeroCleared (Event.setCountdown (some v) :: l) = zeroCleared l := by
  simp [zeroCleared, hv]

theorem zeroCleared_intervalAppend (r : Nat) (tail : List Event)
    (ht : zeroCleared tail = true) :
    zeroCleared (intervalEvents (r + 1) ++ tail) = true := by
  induction r with
  | zero =>
      show zeroCleared (Event.tick :: Event.setCountdown (some 0) ::
        Event.setCountdown Option.none :: tail) = true
      simp [zeroCleared, ht]
  | succ r ih =>
      show zeroCleared (Event.tick :: Event.setCountdown (some ((r + 1 : Nat) : Int)) ::
        (intervalEvents (r + 1) ++ tail)) = true
      have hv : ((r + 1 : Nat) : Int) ≠ 0 := by omega
      rw [zeroCleared_cons_other Event.tick _ (by intro v h; exact Event.noConfusion h),
        zeroCleared_cons_pos _ _ hv, ih]

theorem captureFirst_cons_skip (e : Event) (l : List Event)
    (hc : ∀ i r, e ≠ Event.capture i r) (htk : e ≠ Event.tick) :
    captureFirst (e :: l) = captureFirst l := by
  cases e <;> simp_all [captureFirst]

theorem zeroThenCapture_cons_other (e : Event) (l : List Event)
    (h : ∀ v : Option Int, e ≠ Event.setCountdown v) :
    zeroThenCapture (e :: l) = zeroThenCapture l := by
  cases e <;> simp_all [zeroThenCapture]

theorem zeroThenCapture_cons_none (l : List Event) :
    zeroThenCapture (Event.setCountdown Option.none :: l) = zeroThenCapture l := by
  simp [zeroThenCapture]

theorem zeroThenCapture_cons_pos (v : Int) (l : List Event) (hv : v ≠ 0) :
    zeroThenCapture (Event.setCountdown (some v) :: l) = zeroThenCapture l := by
  simp [zeroThenCapture, hv]

theorem zeroThenCapture_cons_zero (l : List Event) :
    zeroThenCapture (Event.setCountdown (some 0) :: l) =
      (captureFirst l && zeroThenCapture l) := by
  simp [zeroThenCapture]

theorem zeroThenCapture_intervalAppend (r : Nat) (tail : List Event)
    (hc : captureFirst tail = true) (ht : zeroThenCapture tail = true) :
    zeroThenCapture (intervalEvents (r + 1) ++ tail) = true := by
  induction r with
  | zero =>
      show zeroThenCapture (Event.tick :: Event.setCountdown (some 0) ::
        Event.setCountdown Option.none :: tail) = true
      rw [zeroThenCapture_cons_other Event.tick _
          (by intro v h; exact Event.noConfusion h),
        zeroThenCapture_cons_zero, zeroThenCapture_cons_none,
        captureFirst_cons_skip _ _
          (by intro i r h; exact Event.noConfusion h)
          (by intro h; exact Event.noConfusion h),
        hc, ht]
      rfl
  | succ r ih =>
      show zeroThenCapture (Event.tick ::
        Event.setCountdown (some ((r + 1 : Nat) : Int)) ::
        (intervalEvents (r + 1) ++ tail)) = true
      have hv : ((r + 1 : Nat) : Int) ≠ 0 := by omega
      rw [zeroThenCapture_cons_other Event.tick _
          (by intro v h; exact Event.noConfusion h),
        zeroThenCapture_cons_pos _ _ hv, ih]

theorem noNegCd_append (l r : List Event) :
    noNegCd (l ++ r) = (noNegCd l && noNegCd r) := by
  simp [noNegCd, List.all_append]

theorem noNegCd_intervalEvents (r : Nat) :
    noNegCd (intervalEvents (r + 1)) = true := by
  induction r with
  | zero => rfl
  | succ r ih =>
      show noNegCd (Event.tick :: Event.setCountdown (some ((r + 1 : Nat) : Int)) ::
        intervalEvents (r + 1)) = true
      simp_all [noNegCd]
      omega

theorem seconds_succ (t : TimerType) (h : t ≠ TimerType.off) :
    t.seconds = (t.seconds - 1) + 1 := by
  cases t <;> simp_all [TimerType.seconds]

theorem seconds_cast_ne_zero (t : TimerType) (h : t ≠ TimerType.off) :
    ((t.seconds : Nat) : Int) ≠ 0 := by
  cases t <;> simp_all [TimerType.seconds]

theorem zeroCleared_picCap (sf : Surface) (f : FilterType) (i : Nat)
    (res : Option EncodedImage) (tail : List Event)
    (ht : zeroCleared tail = true) :
    zeroCleared ((takePicture sf f).1 ++ Event.capture i res :: tail) = true := by
  rcases takePicture_events sf f with h | h <;> rw [h]
  · rw [List.nil_append,
      zeroCleared_cons_other (Event.capture i res) _
        (by intro v hh; exact Event.noConfusion hh)]
    exact ht
  · rw [List.singleton_append,
      zeroCleared_cons_other Event.flash _
        (by intro v hh; exact Event.noConfusion hh),
      zeroCleared_cons_other (Event.capture i res) _
        (by intro v hh; exact Event.noConfusion hh)]
    exact ht

theorem captureFirst_picCap (sf : Surface) (f : FilterType) (i : Nat)
    (res : Option EncodedImage) (tail : List Event) :
    captureFirst ((takePicture sf f).1 ++ Event.capture i res :: tail) = true := by
  rcases takePicture_events sf f with h | h <;> rw [h] <;>
    simp [captureFirst]

theorem zeroThenCapture_picCap (sf : Surface) (f : FilterType) (i : Nat)
    (res : Option EncodedImage) (tail : List Event)
    (ht : zeroThenCapture tail = true) :
    zeroThenCapture ((takePicture sf f).1 ++ Event.capture i res :: tail) = true := by
  rcases takePicture_events sf f with h | h <;> rw [h]
  · rw [List.nil_append,
      zeroThenCapture_cons_other (Event.capture i res) _
        (by intro v hh; exact Event.noConfusion hh)]
    exact ht
  · rw [List.singleton_append,
      zeroThenCapture_cons_other Event.flash _
        (by intro v hh; exact Event.noConfusion hh),
      zeroThenCapture_cons_other (Event.capture i res) _
        (by intro v hh; exact Event.noConfusion hh)]
    exact ht

theorem noNegCd_picCap (sf : Surface) (f : FilterType) (i : Nat)
    (res : Option EncodedImage) :
    noNegCd ((takePicture sf f).1 ++ [Event.capture i res]) = true := by
  rcases takePicture_events sf f with h | h <;> rw [h] <;> rfl

theorem zeroCleared_segmentAppend (env : Nat → Surface) (f : FilterType)
    (t : TimerType) (i : Nat) (tail : List Event)
    (ht : zeroCleared tail = true) :
    zeroCleared (photoSegment env f t i ++ tail) = true := by
  unfold photoSegment
  by_cases htoff : t = TimerType.off
  · subst htoff
    simp only [ne_eq, not_true_eq_false, if_false, List.nil_append,
      List.cons_append, List.append_assoc, List.singleton_append]
    rw [zeroCleared_cons_other (Event.setIndex (i + 1)) _
      (by intro v hh; exact Event.noConfusion hh)]
    exact zeroCleared_picCap _ _ _ _ _ ht
  · simp only [ne_eq, htoff, not_false_eq_true, if_true, List.cons_append,
      List.append_assoc, List.singleton_append]
    rw [zeroCleared_cons_other (Event.setIndex (i + 1)) _
      (by intro v hh; exact Event.noConfusion hh),
      zeroCleared_cons_pos _ _ (seconds_cast_ne_zero t htoff),
      seconds_succ t htoff]
    exact zeroCleared_intervalAppend _ _ (zeroCleared_picCap _ _ _ _ _ ht)

theorem zeroThenCapture_segmentAppend (env : Nat → Surface) (f : FilterType)
    (t : TimerType) (i : Nat) (tail : List Event)
    (ht : zeroThenCapture tail = true) :
    zeroThenCapture (photoSegment env f t i ++ tail) = true := by
  unfold photoSegment
  by_cases htoff : t = TimerType.off
  · subst htoff
    simp only [ne_eq, not_true_eq_false, if_false, List.nil_append,
      List.cons_append, List.append_assoc, List.singleton_append]
    rw [zeroThenCapture_cons_other (Event.setIndex (i + 1)) _
      (by intro v hh; exact Event.noConfusion hh)]
    exact zeroThenCapture_picCap _ _ _ _ _ ht
  · simp only [ne_eq, htoff, not_false_eq_true, if_true, List.cons_append,
      List.append_assoc, List.singleton_append]
    rw [zeroThenCapture_cons_other (Event.setIndex (i + 1)) _
      (by intro v hh; exact Event.noConfusion hh),
      zeroThenCapture_cons_pos _ _ (seconds_cast_ne_zero t htoff),
      seconds_succ t htoff]
    exact zeroThenCapture_intervalAppend _ _
      (captureFirst_picCap _ _ _ _ _)
      (zeroThenCapture_picCap _ _ _ _ _ ht)

theorem noNegCd_segment (env : Nat → Surface) (f : FilterType)
    (t : TimerType) (i : Nat) :
    noNegCd (photoSegment env f t i) = true := by
  unfold photoSegment
  by_cases htoff : t = TimerType.off
  · subst htoff
    simp only [ne_eq, not_true_eq_false, if_false, List.nil_append]
    have h1 := noNegCd_picCap (env i) f i (takePicture (env i) f).2
    simp only [noNegCd, List.all_cons, List.all_append] at h1 ⊢
    simp_all
  · simp only [ne_eq, htoff, not_false_eq_true, if_true]
    have h1 := noNegCd_picCap (env i) f i (takePicture (env i) f).2
    have h2 := noNegCd_intervalEvents (t.seconds - 1)
    rw [← seconds_succ t htoff] at h2
    simp only [noNegCd, List.all_cons, List.all_append] at h1 h2 ⊢
    simp_all

theorem captureLoop_fst_succ (env : Nat → Surface) (f : FilterType)
    (t : TimerType) (n i : Nat) :
    (captureLoop env f t (n + 1) i).1 =
      photoSegment env f t i ++ (captureLoop env f t n (i + 1)).1 := by
  rw [captureLoop_succ]

theorem zeroCleared_loopAppend (env : Nat → Surface) (f : FilterType)
    (t : TimerType) :
    ∀ n i tail, zeroCleared tail = true →
      zeroCleared ((captureLoop env f t n i).1 ++ tail) = true := by
  intro n
  induction n with
  | zero => intro i tail ht; simpa [captureLoop] using ht
  | succ n ih =>
      intro i tail ht
      rw [captureLoop_fst_succ, List.append_assoc]
      exact zeroCleared_segmentAppend _ _ _ _ _ (ih (i + 1) tail ht)

theorem zeroThenCapture_loopAppend (env : Nat → Surface) (f : FilterType)
    (t : TimerType) :
    ∀ n i tail, zeroThenCapture tail = true →
      zeroThenCapture ((captureLoop env f t n i).1 ++ tail) = true := by
  intro n
  induction n with
  | zero => intro i tail ht; simpa [captureLoop] using ht
  | succ n ih =>
      intro i tail ht
      rw [captureLoop_fst_succ, List.append_assoc]
      exact zeroThenCapture_segmentAppend _ _ _ _ _ (ih (i + 1) tail ht)

theorem noNegCd_loop (env : Nat → Surface) (f : FilterType)
    (t : TimerType) :
    ∀ n i, noNegCd ((captureLoop env f t n i).1) = true := by
  intro n
  induction n with
  | zero => intro i; rfl
  | succ n ih =>
      intro i
      rw [captureLoop_fst_succ, noNegCd_append, noNegCd_segment, ih (i + 1)]
      rfl

theorem zeroCleared_finale (images : List EncodedImage) :
    zeroCleared (finaleEvents images) = true := rfl

theorem zeroThenCapture_finale (images : List EncodedImage) :
    zeroThenCapture (finaleEvents images) = true := rfl

theorem noNegCd_finale (images : List EncodedImage) :
    noNegCd (finaleEvents images) = true := rfl

/-- C5: in every run, the tick that brings the countdown to 0 clears it
and reaches the capture attempt within the same tick (no tick boundary
intervenes), and no published countdown value is ever negative. -/
theorem c5_theorem (env : Nat → Surface) (f : FilterType)
    (t : TimerType) (count : Nat) :
    zeroCleared ((captureMultiplePhotos env f t count).1) = true ∧
    zeroThenCapture ((captureMultiplePhotos env f t count).1) = true ∧
    noNegCd ((captureMultiplePhotos env f t count).1) = true := by
  refine ⟨?_, ?_, ?_⟩
  · show zeroCleared ((captureLoop env f t count 0).1 ++
      finaleEvents (captureLoop env f t count 0).2) = true
    exact zeroCleared_loopAppend env f t count 0 _ (zeroCleared_finale _)
  · show zeroThenCapture ((captureLoop env f t count 0).1 ++
      finaleEvents (captureLoop env f t count 0).2) = true
    exact zeroThenCapture_loopAppend env f t count 0 _ (zeroThenCapture_finale _)
  · show noNegCd ((captureLoop env f t count 0).1 ++
      finaleEvents (captureLoop env f t count 0).2) = true
    rw [noNegCd_append, noNegCd_loop, noNegCd_finale]
    rfl


theorem cdValues_cons_other (e : Event) (l : List Event)
    (h : ∀ v : Option Int, e ≠ Event.setCountdown v) :
    cdValues (e :: l) = cdValues l := by
  cases e <;> simp_all [cdValues]

theorem cdValues_cons_some (v : Int) (l : List Event) :
    cdValues (Event.setCountdown (some v) :: l) = v :: cdValues l := by
  simp [cdValues]

theorem cdValues_cons_none (l : List Event) :
    cdValues (Event.setCountdown Option.none :: l) = cdValues l := by
  simp [cdValues]

theorem cdValues_photoSegment (env : Nat → Surface) (f : FilterType)
    (t : TimerType) (i : Nat) (h : t ≠ TimerType.off) :
    cdValues (photoSegment env f t i) = descList t.seconds := by
  unfold photoSegment
  rw [if_pos h]
  simp only [List.cons_append, List.append_assoc]
  rw [cdValues_cons_other (Event.setIndex (i + 1)) _
      (by intro v hh; exact Event.noConfusion hh),
    cdValues_cons_some, cdValues_append, cdValues_append,
    cdValues_takePicture]
  have hcap : cdValues [Event.capture i (takePicture (env i) f).2] = [] := rfl
  rw [hcap]
  conv_lhs =>
    rw [seconds_succ t h, cdValues_intervalEvents (t.seconds - 1)]
  rw [seconds_succ t h, descList_succ]
  simp

theorem photoSegment_getLast (env : Nat → Surface) (f : FilterType)
    (t : TimerType) (i : Nat) :
    (photoSegment env f t i).getLast? =
      some (Event.capture i (takePicture (env i) f).2) := by
  have hform : photoSegment env f t i =
      (Event.setIndex (i + 1) ::
        ((if t ≠ TimerType.off then
            Event.setCountdown (some (t.seconds : Int)) ::
              intervalEvents t.seconds
          else []) ++ (takePicture (env i) f).1)) ++
        [Event.capture i (takePicture (env i) f).2] := by
    simp [photoSegment, List.append_assoc]
  rw [hform, List.getLast?_concat]

/-- C4: in every run with the timer on, the trace splits into one
segment per photo (in photo order) followed by the epilogue; each
segment publishes exactly the countdown values `timerSeconds, ..., 1, 0`
(each value, in particular each endpoint, exactly once) and ends with
that photo's capture attempt, so a full countdown precedes every photo
of the batch, not only the first. -/
theorem c4_theorem (env : Nat → Surface) (f : FilterType) (t : TimerType)
    (count : Nat) (h : t ≠ TimerType.off) :
    (captureMultiplePhotos env f t count).1 =
      ((List.range count).map (fun j => photoSegment env f t j)).flatten ++
        finaleEvents (captureMultiplePhotos env f t count).2 ∧
    (∀ i, cdValues (photoSegment env f t i) = descList t.seconds) ∧
    (∀ v : Int, (descList t.seconds).count v =
      if 0 ≤ v ∧ v ≤ (t.seconds : Int) then 1 else 0) ∧
    (∀ i, (photoSegment env f t i).getLast? =
      some (Event.capture i (takePicture (env i) f).2)) := by
  refine ⟨captureMultiplePhotos_events env f t count, ?_, ?_, ?_⟩
  · intro i; exact cdValues_photoSegment env f t i h
  · intro v; exact descList_count t.seconds v
  · intro i; exact photoSegment_getLast env f t i

theorem noCdSet_append (l r : List Event) :
    noCdSet (l ++ r) = (noCdSet l && noCdSet r) := by
  simp [noCdSet, List.all_append]

theorem noCdSet_segment_off (env : Nat → Surface) (f : FilterType) (i : Nat) :
    noCdSet (photoSegment env f TimerType.off i) = true := by
  unfold photoSegment
  rcases takePicture_events (env i) f with h | h <;>
    simp [h, noCdSet]

theorem noCdSet_loop_off (env : Nat → Surface) (f : FilterType) :
    ∀ n i, noCdSet ((captureLoop env f TimerType.off n i).1) = true := by
  intro n
  induction n with
  | zero => intro i; rfl
  | succ n ih =>
      intro i
      rw [captureLoop_fst_succ, noCdSet_append, noCdSet_segment_off, ih (i + 1)]
      rfl

theorem noCdSet_finale (images : List EncodedImage) :
    noCdSet (finaleEvents images) = true := rfl

theorem noCdSet_run_off (env : Nat → Surface) (f : FilterType) (count : Nat) :
    noCdSet ((captureMultiplePhotos env f TimerType.off count).1) = true := by
  show noCdSet ((captureLoop env f TimerType.off count 0).1 ++
    finaleEvents (captureLoop env f TimerType.off count 0).2) = true
  rw [noCdSet_append, noCdSet_loop_off, noCdSet_finale]
  rfl

theorem noCdSet_take (evs : List Event) (n : Nat)
    (h : noCdSet evs = true) : noCdSet (evs.take n) = true := by
  rw [noCdSet, List.all_eq_true] at h ⊢
  intro x hx
  exact h x (List.take_subset n evs hx)

theorem countdown_none_invariant :
    ∀ (evs : List Event) (s : CameraState), noCdSet evs = true →
      s.countdown = Option.none → (applyEvents s evs).countdown = Option.none := by
  intro evs
  induction evs with
  | nil => intro s _ h0; exact h0
  | cons e rest ih =>
      intro s hall h0
      rw [noCdSet, List.all_cons, Bool.and_eq_true] at hall
      show (applyEvents (applyEvent s e) rest).countdown = Option.none
      refine ih (applyEvent s e) hall.2 ?_
      cases e with
      | setCountdown v =>
          cases v with
          | none => rfl
          | some w => simp [noCdSet] at hall
      | tick => exact h0
      | setIndex n => exact h0
      | flash => exact h0
      | capture i r => exact h0
      | setCapturedImages imgs => exact h0
      | setIsCapturing b => exact h0

/-- C6: in every run with the timer `'off'`, no numeric countdown value
is ever published, and — starting from any state whose countdown is
clear, as it is whenever a run can start — the observable countdown
stays clear at every point of the run. -/
theorem c6_theorem (env : Nat → Surface) (f : FilterType) (count : Nat) :
    noCdSet ((captureMultiplePhotos env f TimerType.off count).1) = true ∧
    ∀ (s0 : CameraState), s0.countdown = Option.none → ∀ n,
      (applyEvents s0
        (((captureMultiplePhotos env f TimerType.off count).1).take n)).countdown =
        Option.none := by
  refine ⟨noCdSet_run_off env f count, fun s0 h0 n => ?_⟩
  exact countdown_none_invariant _ s0
    (noCdSet_take _ n (noCdSet_run_off env f count)) h0

theorem indexValues_append (l r : List Event) :
    indexValues (l ++ r) = indexValues l ++ indexValues r := by
  simp [indexValues, List.filterMap_append]

theorem indexValues_intervalEvents : ∀ m, indexValues (intervalEvents m) = []
  | 0 => rfl
  | 1 => rfl
  | (m + 2) => by
      show indexValues (Event.tick ::
        Event.setCountdown (some ((m + 1 : Nat) : Int)) ::
        intervalEvents (m + 1)) = []
      simp only [indexValues, List.filterMap_cons]
      exact indexValues_intervalEvents (m + 1)

theorem indexValues_photoSegment (env : Nat → Surface) (f : FilterType)
    (t : TimerType) (i : Nat) :
    indexValues (photoSegment env f t i) = [i + 1] := by
  unfold photoSegment
  rcases takePicture_events (env i) f with h | h <;>
    by_cases htoff : t = TimerType.off <;>
    simp_all [indexValues, List.filterMap_cons, List.filterMap_append] <;>
    have hIE := indexValues_intervalEvents t.seconds <;>
    simp_all [indexValues]

theorem indexValues_loop (env : Nat → Surface) (f : FilterType)
    (t : TimerType) :
    ∀ n i, indexValues ((captureLoop env f t n i).1) =
      (List.range n).map (fun j => i + j + 1) := by
  intro n
  induction n with
  | zero => intro i; rfl
  | succ n ih =>
      intro i
      rw [captureLoop_fst_succ, indexValues_append, indexValues_photoSegment,
        ih (i + 1), List.range_succ_eq_map, List.map_cons, List.map_map]
      have harg : (fun j => i + j + 1) ∘ Nat.succ = fun j => i + 1 + j + 1 := by
        funext j
        have : i + Nat.succ j = i + 1 + j := by omega
        simp [Function.comp, Nat.add_right_cancel_iff, this]
      simp [harg]

theorem indexValues_run (env : Nat → Surface) (f : FilterType)
    (t : TimerType) (count : Nat) :
    indexValues ((captureMultiplePhotos env f t count).1) =
      ((List.range count).map (fun j => j + 1)) ++ [0] := by
  show indexValues ((captureLoop env f t count 0).1 ++
    finaleEvents (captureLoop env f t count 0).2) =
    ((List.range count).map (fun j => j + 1)) ++ [0]
  rw [indexValues_append, indexValues_loop]
  simp [indexValues, finaleEvents]

theorem successCount_append (l r : List Event) :
    successCount (l ++ r) = successCount l + successCount r := by
  simp [successCount, List.filterMap_append]

theorem successCount_intervalEvents : ∀ m, successCount (intervalEvents m) = 0
  | 0 => rfl
  | 1 => rfl
  | (m + 2) => by
      show successCount (Event.tick ::
        Event.setCountdown (some ((m + 1 : Nat) : Int)) ::
        intervalEvents (m + 1)) = 0
      simp only [successCount, List.filterMap_cons]
      exact successCount_intervalEvents (m + 1)

theorem successCount_photoSegment (env : Nat → Surface) (f : FilterType)
    (t : TimerType) (i : Nat) :
    successCount (photoSegment env f t i) =
      match (takePicture (env i) f).2 with
      | some _ => 1
      | Option.none => 0 := by
  unfold photoSegment
  rcases takePicture_events (env i) f with h | h <;>
    by_cases htoff : t = TimerType.off <;>
    cases hres : (takePicture (env i) f).2 <;>
    simp_all [successCount, List.filterMap_cons, List.filterMap_append] <;>
    have hIE := successCount_intervalEvents t.seconds <;>
    simp_all [successCount]

theorem successCount_loop (env : Nat → Surface) (f : FilterType)
    (t : TimerType) :
    ∀ n i, successCount ((captureLoop env f t n i).1) =
      (captureLoop env f t n i).2.length := by
  intro n
  induction n with
  | zero => intro i; rfl
  | succ n ih =>
      intro i
      rw [captureLoop_fst_succ, successCount_append, successCount_photoSegment,
        ih (i + 1), captureLoop_succ]
      cases hres : (takePicture (env i) f).2 <;> simp [hres, Nat.add_comm]

theorem successCount_finale (images : List EncodedImage) :
    successCount (finaleEvents images) = 0 := rfl

theorem successCount_run (env : Nat → Surface) (f : FilterType)
    (t : TimerType) (count : Nat) :
    successCount ((captureMultiplePhotos env f t count).1) =
      (captureMultiplePhotos env f t count).2.length := by
  show successCount ((captureLoop env f t count 0).1 ++
    finaleEvents (captureLoop env f t count 0).2) =
    (captureLoop env f t count 0).2.length
  rw [successCount_append, successCount_loop, successCount_finale,
    Nat.add_zero]

theorem run_images_le (env : Nat → Surface) (f : FilterType)
    (t : TimerType) (count : Nat) :
    (captureMultiplePhotos env f t count).2.length ≤ count := by
  rw [captureMultiplePhotos_images]
  calc ((List.range count).filterMap
        (fun j => (takePicture (env j) f).2)).length
      ≤ (List.range count).length := List.length_filterMap_le _ _
    _ = count := List.length_range count

theorem successCount_take_le (evs : List Event) (n : Nat) :
    successCount (evs.take n) ≤ successCount evs := by
  exact List.Sublist.length_le
    (List.Sublist.filterMap _ (List.take_sublist n evs))

/-- C7: in every run, the published photo indices are exactly
`1, 2, ..., requestedCount` in order (each in `[1, requestedCount]`,
increasing by exactly 1) followed by the final reset to 0 when the run
ends, and the number of accumulated results never exceeds
`requestedCount` at any point of the run. -/
theorem c7_theorem (env : Nat → Surface) (f : FilterType) (t : TimerType)
    (pc : PhotoCountType) :
    indexValues ((captureMultiplePhotos env f t pc.parseInt).1) =
      ((List.range pc.parseInt).map (fun j => j + 1)) ++ [0] ∧
    (∀ v, v ∈ indexValues ((captureLoop env f t pc.parseInt 0).1) →
      1 ≤ v ∧ v ≤ pc.parseInt) ∧
    (captureMultiplePhotos env f t pc.parseInt).2.length ≤ pc.parseInt ∧
    ∀ n, successCount (((captureMultiplePhotos env f t pc.parseInt).1).take n) ≤
      pc.parseInt := by
  refine ⟨indexValues_run env f t pc.parseInt, ?_, run_images_le env f t _, ?_⟩
  · intro v hv
    rw [indexValues_loop] at hv
    simp only [List.mem_map, List.mem_range] at hv
    obtain ⟨j, hj, rfl⟩ := hv
    omega
  · intro n
    calc successCount (((captureMultiplePhotos env f t pc.parseInt).1).take n)
        ≤ successCount ((captureMultiplePhotos env f t pc.parseInt).1) :=
          successCount_take_le _ n
      _ = (captureMultiplePhotos env f t pc.parseInt).2.length :=
          successCount_run env f t _
      _ ≤ pc.parseInt := run_images_le env f t _

/-- C10: every run terminates (the run functions are total), and its
final events unconditionally clear `isCapturing`, reset
`currentPhotoIndex` to 0 and clear the countdown — whatever the
environment did to the individual captures and whatever state the run
started from; the batch published is the run's accumulated images. -/
theorem c10_theorem (env : Nat → Surface) (f : FilterType) (t : TimerType)
    (count : Nat) (s0 : CameraState) :
    (applyEvents s0 (captureMultiplePhotos env f t count).1).isCapturing = false ∧
    (applyEvents s0 (captureMultiplePhotos env f t count).1).currentPhotoIndex = 0 ∧
    (applyEvents s0 (captureMultiplePhotos env f t count).1).countdown = Option.none ∧
    (applyEvents s0 (captureMultiplePhotos env f t count).1).capturedImages =
      (captureMultiplePhotos env f t count).2 := by
  have key : applyEvents s0 (captureMultiplePhotos env f t count).1 =
      { applyEvents s0 (captureLoop env f t count 0).1 with
        capturedImages := (captureLoop env f t count 0).2,
        isCapturing := false, currentPhotoIndex := 0,
        countdown := Option.none } := by
    show applyEvents s0 ((captureLoop env f t count 0).1 ++
      finaleEvents (captureLoop env f t count 0).2) = _
    rw [applyEvents, List.foldl_append]
    rfl
  rw [key]
  exact ⟨rfl, rfl, rfl, rfl⟩


theorem filterMap_eq_map_of_forall {α β : Type} (l : List α)
    (g : α → Option β) (u : α → β) (h : ∀ j ∈ l, g j = some (u j)) :
    l.filterMap g = l.map u := by
  induction l with
  | nil => rfl
  | cons a l ih =>
      rw [List.filterMap_cons, List.map_cons, h a (List.mem_cons_self a l),
        ih (fun j hj => h j (List.mem_cons_of_mem a hj))]

theorem run_images_filter (env : Nat → Surface) (f : FilterType)
    (t : TimerType) (count : Nat) :
    ∀ img ∈ (captureMultiplePhotos env f t count).2, img.filter = f := by
  intro img himg
  rw [captureMultiplePhotos_images, List.mem_filterMap] at himg
  obtain ⟨j, _, hj⟩ := himg
  rw [takePicture_result] at hj
  by_cases hok : surfaceOk (env j) = true
  · rw [if_pos hok] at hj
    injection hj with hj
    rw [← hj]
  · rw [if_neg hok] at hj
    exact absurd hj (by simp)

/-- C1 (as stated) is false on the code: with `requestedCount = 2` and a
surface that fails only the second capture attempt, the run completes
(`isCapturing` cleared, batch published, review entered) with 1 image,
not 2. -/
theorem c1_counterexample :
    (applyEvents initState
      (captureMultiplePhotos envPartial FilterType.none TimerType.off 2).1).isCapturing
        = false ∧
    (applyEvents initState
      (captureMultiplePhotos envPartial FilterType.none TimerType.off 2).1).capturedImages.length
        = 1 ∧
    (captureMultiplePhotos envPartial FilterType.none TimerType.off 2).2.length ≠ 2 := by
  decide

/-- C1 (amended): if every capture attempt of the run succeeds, a
completed run yields exactly `requestedCount` images, and the image at
batch position `i` is the one captured for photo `i` — strictly
increasing capture order.  (Without that hypothesis the batch lists only
the successful captures, still in capture order; see C3.) -/
theorem c1_amended_theorem (env : Nat → Surface) (f : FilterType)
    (t : TimerType) (pc : PhotoCountType)
    (h : ∀ i, i < pc.parseInt → surfaceOk (env i) = true) :
    (captureMultiplePhotos env f t pc.parseInt).2.length = pc.parseInt ∧
    ∀ i, i < pc.parseInt →
      ((captureMultiplePhotos env f t pc.parseInt).2)[i]? =
        some ⟨(env i).frame, f⟩ := by
  have himg : (captureMultiplePhotos env f t pc.parseInt).2 =
      (List.range pc.parseInt).map
        (fun j => (⟨(env j).frame, f⟩ : EncodedImage)) := by
    rw [captureMultiplePhotos_images]
    apply filterMap_eq_map_of_forall
    intro j hj
    rw [List.mem_range] at hj
    rw [takePicture_result, if_pos (h j hj)]
  constructor
  · rw [himg, List.length_map, List.length_range]
  · intro i hi
    rw [himg, List.getElem?_map, List.getElem?_range hi]
    rfl

/-- C1 witness: with an always-available surface and `requestedCount = 2`
the amended theorem applies and gives a 2-image batch in capture
order. -/
theorem c1_witness :
    (∀ i, i < PhotoCountType.c2.parseInt → surfaceOk (envGood i) = true) ∧
    ((captureMultiplePhotos envGood FilterType.sepia TimerType.off
        PhotoCountType.c2.parseInt).2.length = PhotoCountType.c2.parseInt ∧
     ∀ i, i < PhotoCountType.c2.parseInt →
       ((captureMultiplePhotos envGood FilterType.sepia TimerType.off
          PhotoCountType.c2.parseInt).2)[i]? =
         some ⟨(envGood i).frame, FilterType.sepia⟩) :=
  ⟨by decide,
   c1_amended_theorem envGood FilterType.sepia TimerType.off PhotoCountType.c2
     (by decide)⟩

/-- C2 (as stated) is false on the code: `capturePhoto` performs no
check of `isCapturing` and no `RunAlreadyActive` condition exists.
Invoked on a state in which a run is active, it performs a capture (a
second run) and mutates the existing run's state. -/
theorem c2_counterexample :
    activeState.isCapturing = true ∧
    attemptCount (capturePhoto envGood activeState).1 = 1 ∧
    applyEvents activeState (capturePhoto envGood activeState).1 ≠ activeState := by
  decide

/-- C2 (amended): the protection is in the UI, not in `capturePhoto`:
while a run is active the capture button is rendered disabled, so a
click is a no-op — no events are emitted, no images are produced and the
existing run's state is unchanged.  No `RunAlreadyActive` condition is
raised anywhere. -/
theorem c2_amended_theorem (env : Nat → Surface) (s : CameraState)
    (h : s.isCapturing = true) :
    clickCaptureButton env s = ([], []) ∧
    applyEvents s (clickCaptureButton env s).1 = s := by
  have hbtn : clickCaptureButton env s = ([], []) := by
    unfold clickCaptureButton
    rw [if_neg]
    intro hc
    rw [h] at hc
    simp at hc
  refine ⟨hbtn, ?_⟩
  rw [hbtn]
  rfl

/-- C2 witness: clicking the capture control in a mid-run state does
nothing. -/
theorem c2_witness :
    activeState.isCapturing = true ∧
    (clickCaptureButton envGood activeState = ([], []) ∧
     applyEvents activeState (clickCaptureButton envGood activeState).1 =
       activeState) :=
  ⟨rfl, c2_amended_theorem envGood activeState rfl⟩

/-- C3 (as stated) is false on the code: when the surface fails only the
second of three capture attempts, the run does not abort — the partial
results are kept, published, and review mode is entered with a 2-image
batch smaller than `requestedCount = 3`. -/
theorem c3_counterexample :
    (takePicture (envPartial 1) FilterType.sepia).2 = Option.none ∧
    (applyEvents initState
      (captureMultiplePhotos envPartial FilterType.sepia TimerType.off 3).1).capturedImages =
      [⟨0, FilterType.sepia⟩, ⟨2, FilterType.sepia⟩] ∧
    (applyEvents initState
      (captureMultiplePhotos envPartial FilterType.sepia TimerType.off 3).1).capturedImages ≠ [] ∧
    (applyEvents initState
      (captureMultiplePhotos envPartial FilterType.sepia TimerType.off 3).1).capturedImages.length < 3 := by
  decide

/-- C3 (amended): a failed capture attempt is silently skipped, not
fatal: the loop still performs the attempt for every photo index, and
the final batch is exactly the successful captures in capture order —
possibly fewer than `requestedCount`, which is then surfaced as-is. -/
theorem c3_amended_theorem (env : Nat → Surface) (f : FilterType)
    (t : TimerType) (count : Nat) :
    (captureMultiplePhotos env f t count).2 =
      (List.range count).filterMap (fun j => (takePicture (env j) f).2) ∧
    ∀ i, i < count →
      Event.capture i ((takePicture (env i) f).2) ∈
        (captureMultiplePhotos env f t count).1 := by
  refine ⟨captureMultiplePhotos_images env f t count, ?_⟩
  intro i hi
  rw [captureMultiplePhotos_events]
  apply List.mem_append_left
  rw [List.mem_flatten]
  refine ⟨photoSegment env f t i, List.mem_map.2 ⟨i, List.mem_range.2 hi, rfl⟩, ?_⟩
  unfold photoSegment
  simp

/-- C3 witness: on the surface failing only attempt 1, the run of 3
still contains the (failed) capture attempt for photo 1 and its batch is
the successful captures. -/
theorem c3_witness :
    (captureMultiplePhotos envPartial FilterType.none TimerType.off 3).2 =
      (List.range 3).filterMap
        (fun j => (takePicture (envPartial j) FilterType.none).2) ∧
    Event.capture 1 ((takePicture (envPartial 1) FilterType.none).2) ∈
      (captureMultiplePhotos envPartial FilterType.none TimerType.off 3).1 :=
  ⟨(c3_amended_theorem envPartial FilterType.none TimerType.off 3).1,
   (c3_amended_theorem envPartial FilterType.none TimerType.off 3).2 1
     (by decide)⟩

/-- C4 witness: concrete instance with a 3-second timer and one photo. -/
theorem c4_witness :
    TimerType.t3 ≠ TimerType.off ∧
    ((captureMultiplePhotos envGood FilterType.none TimerType.t3 1).1 =
      ((List.range 1).map
        (fun j => photoSegment envGood FilterType.none TimerType.t3 j)).flatten ++
        finaleEvents (captureMultiplePhotos envGood FilterType.none TimerType.t3 1).2 ∧
     (∀ i, cdValues (photoSegment envGood FilterType.none TimerType.t3 i) =
       descList TimerType.t3.seconds) ∧
     (∀ v : Int, (descList TimerType.t3.seconds).count v =
       if 0 ≤ v ∧ v ≤ (TimerType.t3.seconds : Int) then 1 else 0) ∧
     (∀ i, (photoSegment envGood FilterType.none TimerType.t3 i).getLast? =
       some (Event.capture i (takePicture (envGood i) FilterType.none).2))) :=
  ⟨by decide, c4_theorem envGood FilterType.none TimerType.t3 1 (by decide)⟩

/-- C6 witness: concrete timer-off run of 2 photos. -/
theorem c6_witness :
    noCdSet ((captureMultiplePhotos envGood FilterType.none TimerType.off 2).1) = true ∧
    initState.countdown = Option.none ∧
    (applyEvents initState
      (((captureMultiplePhotos envGood FilterType.none TimerType.off 2).1).take 3)).countdown =
      Option.none :=
  ⟨(c6_theorem envGood FilterType.none 2).1, rfl,
   (c6_theorem envGood FilterType.none 2).2 initState rfl 3⟩

/-- C7 witness: concrete run of 3 photos. -/
theorem c7_witness :
    indexValues ((captureMultiplePhotos envGood FilterType.none TimerType.off
      PhotoCountType.c3.parseInt).1) =
      ((List.range PhotoCountType.c3.parseInt).map (fun j => j + 1)) ++ [0] ∧
    (1 ≤ 2 ∧ 2 ≤ PhotoCountType.c3.parseInt) ∧
    successCount (((captureMultiplePhotos envGood FilterType.none TimerType.off
      PhotoCountType.c3.parseInt).1).take 5) ≤ PhotoCountType.c3.parseInt :=
  ⟨(c7_theorem envGood FilterType.none TimerType.off PhotoCountType.c3).1,
   (c7_theorem envGood FilterType.none TimerType.off PhotoCountType.c3).2.1 2
     (by decide),
   (c7_theorem envGood FilterType.none TimerType.off PhotoCountType.c3).2.2.2 5⟩

theorem runProj_applySelector (s : CameraState) (se : SelectorEvent) :
    runProj (applySelector s se) = runProj s := by
  cases se <;> rfl

theorem runProj_applyEvent_congr (s1 s2 : CameraState) (e : Event)
    (h : runProj s1 = runProj s2) :
    runProj (applyEvent s1 e) = runProj (applyEvent s2 e) := by
  simp only [runProj, Prod.mk.injEq] at h
  obtain ⟨h1, h2, h3, h4, h5⟩ := h
  cases e <;> simp [applyEvent, runProj, Prod.mk.injEq, h1, h2, h3, h4, h5]

theorem runProj_applyEvents_congr :
    ∀ (l : List Event) (s1 s2 : CameraState), runProj s1 = runProj s2 →
      runProj (applyEvents s1 l) = runProj (applyEvents s2 l) := by
  intro l
  induction l with
  | nil => intro s1 s2 h; exact h
  | cons e rest ih =>
      intro s1 s2 h
      exact ih (applyEvent s1 e) (applyEvent s2 e)
        (runProj_applyEvent_congr s1 s2 e h)

theorem applyMixed_runProj :
    ∀ (m : List (Event ⊕ SelectorEvent)) (s : CameraState),
      runProj (applyMixed s m) = runProj (applyEvents s (runEventsOf m)) := by
  intro m
  induction m with
  | nil => intro s; rfl
  | cons x rest ih =>
      intro s
      cases x with
      | inl e => exact ih (applyEvent s e)
      | inr se =>
          show runProj (applyMixed (applySelector s se) rest) =
            runProj (applyEvents s (runEventsOf rest))
          rw [ih (applySelector s se)]
          exact runProj_applyEvents_congr _ _ _ (runProj_applySelector s se)

/-- C8: the run configuration is the snapshot taken when `capturePhoto`
is invoked.  Two invocation states agreeing on the three selector values
produce identical runs (same events, countdowns, photo count, images);
every image produced carries the snapshot filter; and interleaving any
selector changes into the run's event stream leaves every run-owned
state field (countdown, batch, photo index, capturing flag, flash)
exactly as in the uninterfered run. -/
theorem c8_theorem (env : Nat → Surface) (s1 s2 : CameraState)
    (hf : s1.filter = s2.filter) (ht : s1.timer = s2.timer)
    (hp : s1.photoCount = s2.photoCount) :
    capturePhoto env s1 = capturePhoto env s2 ∧
    (∀ img ∈ (capturePhoto env s1).2, img.filter = s1.filter) ∧
    ∀ (m : List (Event ⊕ SelectorEvent)),
      runEventsOf m = (capturePhoto env s1).1 →
      runProj (applyMixed s1 m) =
        runProj (applyEvents s1 (capturePhoto env s1).1) := by
  refine ⟨?_, ?_, ?_⟩
  · unfold capturePhoto
    rw [hf, ht, hp]
  · intro img himg
    exact run_images_filter env s1.filter s1.timer _ img himg
  · intro m hm
    rw [applyMixed_runProj, hm]

/-- C8 witness: the initial state and a mid-run state share selector
values, so their snapshots produce identical runs; the pure event list
itself is one valid interleaving. -/
theorem c8_witness :
    initState.filter = activeState.filter ∧
    initState.timer = activeState.timer ∧
    initState.photoCount = activeState.photoCount ∧
    (capturePhoto envGood initState = capturePhoto envGood activeState ∧
     (∀ img ∈ (capturePhoto envGood initState).2,
       img.filter = initState.filter) ∧
     ∀ (m : List (Event ⊕ SelectorEvent)),
       runEventsOf m = (capturePhoto envGood initState).1 →
       runProj (applyMixed initState m) =
         runProj (applyEvents initState (capturePhoto envGood initState).1)) :=
  ⟨rfl, rfl, rfl, c8_theorem envGood initState activeState rfl rfl rfl⟩

/-- C9: on a non-empty batch, `downloadPhoto` yields exactly one
download invocation per image, in batch order (the links' `href`s are
the batch itself), each named
`vintage-photo-<timestamp>-<index>.png` with the image's 1-based batch
position, and it leaves the component state untouched. -/
theorem c9_theorem (now : Nat → Nat) (s : CameraState)
    (h : s.capturedImages ≠ []) :
    (downloadPhoto now s).2 = s ∧
    (downloadPhoto now s).1.map DownloadLink.href = s.capturedImages ∧
    ∀ i, i < s.capturedImages.length →
      ((downloadPhoto now s).1.map DownloadLink.download)[i]? =
        some ("vintage-photo-" ++ toString (now i) ++ "-" ++
          toString (i + 1) ++ ".png") := by
  have hlen : ¬ s.capturedImages.length = 0 := by
    simpa [List.length_eq_zero] using h
  unfold downloadPhoto
  rw [if_neg hlen]
  refine ⟨rfl, ?_, ?_⟩
  · rw [List.map_map]
    exact List.enum_map_snd s.capturedImages
  · intro i hi
    rw [List.map_map, List.getElem?_map, List.getElem?_enum,
      List.getElem?_eq_getElem hi]
    rfl

/-- C9 witness: a one-image batch with a fixed clock. -/
theorem c9_witness :
    oneShotState.capturedImages ≠ [] ∧
    ((downloadPhoto (fun _ => 42) oneShotState).2 = oneShotState ∧
     (downloadPhoto (fun _ => 42) oneShotState).1.map DownloadLink.href =
       oneShotState.capturedImages ∧
     ∀ i, i < oneShotState.capturedImages.length →
       ((downloadPhoto (fun _ => 42) oneShotState).1.map
         DownloadLink.download)[i]? =
         some ("vintage-photo-" ++ toString ((42 : Nat)) ++ "-" ++
           toString (i + 1) ++ ".png")) :=
  ⟨by decide, c9_theorem (fun _ => 42) oneShotState (by decide)⟩

end Photobooth
